import Mathlib

/-!
Shallow embedding of the routing library (package `routing`, file `routing.go`).

The Go code reads `/proc/net/route` and parses it; every function below is the
pure part of the corresponding Go function, with the file contents passed in as
a `String` argument instead of being read from the filesystem.  Go's `(T, error)`
multi-value returns are modelled by `GoRet`, and runtime panics (slice index out
of range) by the `crash` constructor.  Machine integers are modelled as `Int`
with the explicit clamping performed by `strconv.ParseInt`.
-/

/-- Outcome of an intermediate Go computation: a value, a Go `error` that is
being returned early, or a runtime panic. -/
inductive GoResult (α : Type) where
  | ok : α → GoResult α
  | err : String → GoResult α
  | crash : String → GoResult α
deriving Repr, DecidableEq

/-- A Go multi-value return `(value, error)`, or a runtime panic. -/
inductive GoRet (α : Type) where
  | ret : α → Option String → GoRet α
  | crash : String → GoRet α
deriving Repr, DecidableEq

/-- The two error kinds produced by `strconv.ParseInt`: `ErrSyntax` and `ErrRange`. -/
inductive NumErr where
  | badSyn : NumErr
  | outOfRange : NumErr
deriving Repr, DecidableEq

/-- Rendering of `(*strconv.NumError).Error()` for `strconv.ParseInt`, as wrapped
by `errors.New(valErr.Error())` in the Go code. -/
def numErrMsg (s : String) (e : NumErr) : String :=
  "strconv.ParseInt: parsing \"" ++ s ++ "\": " ++
    (match e with
     | NumErr.badSyn => "invalid syntax"
     | NumErr.outOfRange => "value out of range")

/-- Digit value of a character in the given base, following Go `strconv`'s
per-character digit computation (`0-9`, `a-z`, `A-Z`, rejected when `≥ base`). -/
def digitVal (base : Nat) (c : Char) : Option Nat :=
  let v : Option Nat :=
    if '0' ≤ c ∧ c ≤ '9' then some (c.toNat - '0'.toNat)
    else if 'a' ≤ c ∧ c ≤ 'z' then some (c.toNat - 'a'.toNat + 10)
    else if 'A' ≤ c ∧ c ≤ 'Z' then some (c.toNat - 'A'.toNat + 10)
    else none
  match v with
  | some d => if d < base then some d else none
  | none => none

/-- The accumulation loop of Go `strconv.ParseUint`: consume digits left to
right; an invalid character yields `(0, ErrSyntax)`, exceeding `maxVal`
yields `(maxVal, ErrRange)` immediately. -/
def goParseUintLoop (base maxVal : Nat) : List Char → Nat → Nat × Option NumErr
  | [], n => (n, none)
  | c :: cs, n =>
    match digitVal base c with
    | none => (0, some NumErr.badSyn)
    | some d =>
      if n * base + d > maxVal then (maxVal, some NumErr.outOfRange)
      else goParseUintLoop base maxVal cs (n * base + d)

/-- Go `strconv.ParseUint s base bitSize` (no sign, no base-prefix handling,
which matches the explicit bases 10 and 16 used by the routing code). -/
def parseUintGo (ds : List Char) (base bitSize : Nat) : Nat × Option NumErr :=
  match ds with
  | [] => (0, some NumErr.badSyn)
  | _ => goParseUintLoop base (2 ^ bitSize - 1) ds 0

/-- Go `strconv.ParseInt s base bitSize`: strips an optional sign, runs
`ParseUint`, then clamps to the signed range `[-2^(bitSize-1), 2^(bitSize-1)-1]`,
reporting `ErrRange` (with the clamped value) when out of range. -/
def parseIntGo (s : String) (base bitSize : Nat) : Int × Option NumErr :=
  match s.data with
  | [] => (0, some NumErr.badSyn)
  | c :: cs =>
    let neg := c = '-'
    let ds := if c = '-' ∨ c = '+' then cs else c :: cs
    match parseUintGo ds base bitSize with
    | (_, some NumErr.badSyn) => (0, some NumErr.badSyn)
    | (un, _) =>
      let cutoff : Nat := 2 ^ (bitSize - 1)
      if ¬neg ∧ un ≥ cutoff then ((cutoff : Int) - 1, some NumErr.outOfRange)
      else if neg ∧ un > cutoff then (-(cutoff : Int), some NumErr.outOfRange)
      else ((if neg then -(un : Int) else (un : Int)), none)

/-- Split a character list at every occurrence of `sep`, Go
`strings.Split s sep` for a one-character separator (both separators used by
the routing code, `"\n"` and `"\t"`, are one character). -/
def splitChar (sep : Char) : List Char → List (List Char)
  | [] => [[]]
  | c :: cs =>
    if c = sep then [] :: splitChar sep cs
    else
      match splitChar sep cs with
      | [] => [[c]]
      | h :: t => (c :: h) :: t

/-- Go `unicode.IsSpace` restricted to the Latin-1 range, as used by
`strings.TrimSpace`. -/
def isSpaceGo (c : Char) : Bool :=
  c = ' ' || c = '\t' || c = '\n' || c = Char.ofNat 11 || c = Char.ofNat 12 ||
    c = '\r' || c = Char.ofNat 133 || c = Char.ofNat 160

/-- Go `strings.TrimSpace` on a character list. -/
def trimGo (l : List Char) : List Char :=
  ((l.dropWhile isSpaceGo).reverse.dropWhile isSpaceGo).reverse

/-- Boolean test that the first list is a prefix of the second. -/
def listPrefixOf : List Char → List Char → Bool
  | [], _ => true
  | _ :: _, [] => false
  | a :: as, b :: bs => (a = b) && listPrefixOf as bs

/-- Boolean test that the first list occurs contiguously inside the second. -/
def listInfixOf : List Char → List Char → Bool
  | pat, [] => listPrefixOf pat []
  | pat, c :: cs => listPrefixOf pat (c :: cs) || listInfixOf pat cs

/-- Go `strings.Contains s pat`. -/
def containsSubstr (s pat : String) : Bool :=
  listInfixOf pat.data s.data

/-- `RouteFlag` struct: a routing flag and its meaning. -/
structure RouteFlag where
  letter : String
  bit : Int
  name : String
  desc : String
deriving Repr, DecidableEq

/-- Table entry `{"U", 0x1, "Up", ...}`. -/
def uFlag : RouteFlag := ⟨"U", 1, "Up", "Route is usable (interface is up)"⟩

/-- Table entry `{"G", 0x2, "Gateway", ...}`. -/
def gFlag : RouteFlag := ⟨"G", 2, "Gateway", "Destination is a gateway"⟩

/-- Table entry `{"H", 0x4, "Host", ...}`. -/
def hFlag : RouteFlag := ⟨"H", 4, "Host", "Target is a host (not a network)"⟩

/-- Table entry `{"R", 0x8, "Reinstate", ...}`. -/
def rFlag : RouteFlag := ⟨"R", 8, "Reinstate", "Route was reinstated for dynamic routing"⟩

/-- Table entry `{"D", 0x10, "Dynamic", ...}`. -/
def dFlag : RouteFlag := ⟨"D", 16, "Dynamic", "Route was dynamically created by daemon or redirect"⟩

/-- Table entry `{"M", 0x20, "Modified", ...}`. -/
def mFlag : RouteFlag := ⟨"M", 32, "Modified", "Route was modified by redirect"⟩

/-- Table entry `{"A", 0x40, "Addrconf", ...}`. -/
def aFlag : RouteFlag := ⟨"A", 64, "Addrconf", "Route created by address autoconf"⟩

/-- Table entry `{"C", 0x80, "Cache", ...}`. -/
def cFlag : RouteFlag := ⟨"C", 128, "Cache", "Route is in cache"⟩

/-- The global `routeFlags` table (8 entries, ascending bit values). -/
def routeFlags : List RouteFlag :=
  [uFlag, gFlag, hFlag, rFlag, dFlag, mFlag, aFlag, cFlag]

/-- `RoutingTable` struct: one row of `/proc/net/route`.  The Go `int8` fields
are modelled as `Int` (their values always lie in `[-128, 127]` because
`strconv.ParseInt` clamps to the requested bit size). -/
@[ext]
structure RoutingTable where
  iface : String
  destination : String
  gateway : String
  flags : List RouteFlag
  refCnt : Int
  use : Int
  metric : Int
  mask : String
  mtu : Int
  window : Int
  irtt : Int
deriving Repr, DecidableEq

/-- The Go zero value `RoutingTable{}`. -/
def emptyRow : RoutingTable :=
  ⟨"", "", "", [], 0, 0, 0, "", 0, 0, 0⟩

/-- `DecimalToIP`: builds `net.IPv4(byte(d), byte(d>>8), byte(d>>16), byte(d>>24)).String()`.
Go's arithmetic right shift on `int64` is floor division, and `byte(x)` is the
low 8 bits; Lean's `Int` `%`/`/` are Euclidean, which agree with those for the
positive divisor 256. -/
def DecimalToIP (decimal : Int) : String :=
  toString (decimal % 256).toNat ++ "." ++
    toString ((decimal / 256) % 256).toNat ++ "." ++
    toString ((decimal / 65536) % 256).toNat ++ "." ++
    toString ((decimal / 16777216) % 256).toNat

/-- The loop of `computeRouteFlag`: iterate `i` over the given index list
(Go: `for i := int16(0); i < bits; i++`), reading `routeFlags[i]`; an index
past the end of the 8-element table is a runtime panic, modelled as `none`. -/
def crfGo : List Nat → Int → List RouteFlag → Option (List RouteFlag)
  | [], _, acc => some acc
  | i :: is, counter, acc =>
    match routeFlags[i]? with
    | none => none
    | some rf =>
      if counter = rf.bit then crfGo is (counter + 1) (acc ++ [rf])
      else crfGo is counter acc

/-- `computeRouteFlag bits`: runs the counter loop over `i = 0, ..., bits-1`
starting from `counter = 1` and an empty accumulator.  `none` models the Go
panic `index out of range`. -/
def computeRouteFlag (bits : Int) : Option (List RouteFlag) :=
  crfGo (List.range bits.toNat) 1 []

/-- One iteration of the column loop in `GetLinuxRoutingTable`: the
`switch d` statement dispatching a trimmed header name `d` and raw column
value `v` onto the row's fields. -/
def applyColumn (d v : String) (r : RoutingTable) : GoResult RoutingTable :=
  if d = "Iface" then GoResult.ok { r with iface := v }
  else if d = "Destination" then GoResult.ok { r with destination := v }
  else if d = "Gateway" then
    match parseIntGo v 16 64 with
    | (_, some e) => GoResult.err (numErrMsg v e)
    | (val, none) => GoResult.ok { r with gateway := DecimalToIP val }
  else if d = "Flags" then
    match computeRouteFlag (parseIntGo v 10 16).1 with
    | none => GoResult.crash "index out of range"
    | some fs => GoResult.ok { r with flags := fs }
  else if d = "RefCnt" then GoResult.ok { r with refCnt := (parseIntGo v 10 8).1 }
  else if d = "Use" then GoResult.ok { r with use := (parseIntGo v 10 8).1 }
  else if d = "Metric" then GoResult.ok { r with metric := (parseIntGo v 10 8).1 }
  else if d = "Mask" then GoResult.ok { r with mask := v }
  else if d = "MTU" then GoResult.ok { r with mtu := (parseIntGo v 10 8).1 }
  else if d = "Window" then GoResult.ok { r with window := (parseIntGo v 10 8).1 }
  else if d = "IRTT" then GoResult.ok { r with irtt := (parseIntGo v 10 8).1 }
  else GoResult.ok r

/-- The inner loop `for n, v := range fColumn` of `GetLinuxRoutingTable`:
columns are matched with `description[n]` in lockstep; a row with more columns
than the header panics on the header lookup. -/
def parseColumns : List String → List String → RoutingTable → GoResult RoutingTable
  | _, [], r => GoResult.ok r
  | [], _ :: _, _ => GoResult.crash "index out of range"
  | dn :: ds, v :: vs, r =>
    match applyColumn (String.mk (trimGo dn.data)) v r with
    | GoResult.ok r2 => parseColumns ds vs r2
    | GoResult.err m => GoResult.err m
    | GoResult.crash m => GoResult.crash m

/-- The outer loop `for _, v := range fRows` of `GetLinuxRoutingTable`: rows
containing `"Iface"` are skipped, every other row (including blank lines) is
split on tabs and parsed into a fresh `RoutingTable{}`. -/
def parseRows (description : List String) : List String → GoResult (List RoutingTable)
  | [] => GoResult.ok []
  | v :: vs =>
    if containsSubstr v "Iface" then parseRows description vs
    else
      match parseColumns description ((splitChar '\t' v.data).map String.mk) emptyRow with
      | GoResult.ok row =>
        match parseRows description vs with
        | GoResult.ok rest => GoResult.ok (row :: rest)
        | GoResult.err m => GoResult.err m
        | GoResult.crash m => GoResult.crash m
      | GoResult.err m => GoResult.err m
      | GoResult.crash m => GoResult.crash m

/-- `fRows := strings.Split(fTable, "\n")`. -/
def rowsOf (fTable : String) : List String :=
  (splitChar '\n' fTable.data).map String.mk

/-- `description := strings.Split(fRows[0], "\t")` (the row list is never
empty, so `headD` is exact). -/
def descriptionOf (fTable : String) : List String :=
  (splitChar '\t' ((rowsOf fTable).headD "").data).map String.mk

/-- Packaging of the loop result as `GetLinuxRoutingTable`'s return value:
a Gateway parse failure is `return nil, errors.New(...)`, modelled as
`.ret [] (some msg)`. -/
def goTableRet : GoResult (List RoutingTable) → GoRet (List RoutingTable)
  | GoResult.ok t => GoRet.ret t none
  | GoResult.err m => GoRet.ret [] (some m)
  | GoResult.crash m => GoRet.crash m

/-- `GetLinuxRoutingTable`, with the contents of `/proc/net/route` passed in as
`fTable`. -/
def GetLinuxRoutingTable (fTable : String) : GoRet (List RoutingTable) :=
  goTableRet (parseRows (descriptionOf fTable) (rowsOf fTable))

/-- `flagContains rf letter`: scans the flag list, `strings.Contains` on each
letter. -/
def flagContains (rf : List RouteFlag) (letter : String) : Bool :=
  rf.any (fun v => containsSubstr v.letter letter)

/-- The scan loop of `getDefaultGW`: `up` and `gateway` are declared outside
the loop and are never reset, and the entry of the iteration at which both
have become true is returned. -/
def gwScan : List RoutingTable → Bool → Bool → Option RoutingTable
  | [], _, _ => none
  | v :: vs, up, gw =>
    let up2 := up || flagContains v.flags "U"
    let gw2 := gw || flagContains v.flags "G"
    if up2 && gw2 then some v else gwScan vs up2 gw2

/-- `getDefaultGW` applied to the result of `GetLinuxRoutingTable`.  On the
error path and on the not-found path Go evaluates `rt[0]`, which panics when
the slice is empty (it is `nil` on every parser error). -/
def getDefaultGWFrom (pr : GoRet (List RoutingTable)) : GoRet RoutingTable :=
  match pr with
  | GoRet.crash m => GoRet.crash m
  | GoRet.ret rt (some e) =>
    match rt.head? with
    | none => GoRet.crash "index out of range"
    | some v0 => GoRet.ret v0 (some e)
  | GoRet.ret rt none =>
    match gwScan rt false false with
    | some v => GoRet.ret v none
    | none =>
      match rt.head? with
      | none => GoRet.crash "index out of range"
      | some v0 => GoRet.ret v0 (some "could not locate default GW")

/-- `getDefaultGW`, from the raw file text. -/
def getDefaultGW (fTable : String) : GoRet RoutingTable :=
  getDefaultGWFrom (GetLinuxRoutingTable fTable)

/-- `FindLinuxDefaultGW` stage after the routing table has been obtained:
on error returns `("", err)`, otherwise the entry's Gateway string. -/
def FindLinuxDefaultGWFrom (pr : GoRet (List RoutingTable)) : GoRet String :=
  match getDefaultGWFrom pr with
  | GoRet.crash m => GoRet.crash m
  | GoRet.ret _ (some e) => GoRet.ret "" (some e)
  | GoRet.ret tr none => GoRet.ret tr.gateway none

/-- `FindLinuxDefaultGW`, from the raw file text. -/
def FindLinuxDefaultGW (fTable : String) : GoRet String :=
  FindLinuxDefaultGWFrom (GetLinuxRoutingTable fTable)

/-- `FindLinuxDefaultGGWInterface` stage after the routing table has been
obtained: on error returns `("", err)`, otherwise the entry's Interface name. -/
def FindLinuxDefaultGGWInterfaceFrom (pr : GoRet (List RoutingTable)) : GoRet String :=
  match getDefaultGWFrom pr with
  | GoRet.crash m => GoRet.crash m
  | GoRet.ret _ (some e) => GoRet.ret "" (some e)
  | GoRet.ret tr none => GoRet.ret tr.iface none

/-- `FindLinuxDefaultGGWInterface`, from the raw file text. -/
def FindLinuxDefaultGGWInterface (fTable : String) : GoRet String :=
  FindLinuxDefaultGGWInterfaceFrom (GetLinuxRoutingTable fTable)

/-- The header row of `/proc/net/route` (tab-separated column names). -/
def stdHeader : String :=
  "Iface\tDestination\tGateway\tFlags\tRefCnt\tUse\tMetric\tMask\tMTU\tWindow\tIRTT"

/-- A data row whose Gateway column holds the given value (interface and
destination columns are fixed benign values). -/
def mkBadRow (v : String) : String := "eth0\t00000000\t" ++ v

/-- The decimal digit character for a digit value. -/
def digitChar (d : Nat) : Char := Char.ofNat (48 + d)

/-- Fuel-driven most-significant-first decimal digit values of a natural
number. -/
def natDigitsAux : Nat → Nat → List Nat
  | 0, _ => []
  | fuel + 1, n => if n < 10 then [n] else natDigitsAux fuel (n / 10) ++ [n % 10]

/-- Most-significant-first decimal digit values of a natural number
(`n + 1` fuel always suffices). -/
def natDigitList (n : Nat) : List Nat := natDigitsAux (n + 1) n

/-- The standard decimal representation of an integer (Go `fmt`/`strconv`
formatting: optional minus sign followed by the digits of the magnitude). -/
def decString (x : Int) : String :=
  String.mk
    (if x < 0 then '-' :: (natDigitList x.natAbs).map digitChar
     else (natDigitList x.natAbs).map digitChar)

/-- Saturation of an integer to the signed 8-bit range `[-128, 127]`, the
clamping `strconv.ParseInt(v, 10, 8)` performs on out-of-range values. -/
def clamp8 (x : Int) : Int :=
  if x < -128 then -128 else if 127 < x then 127 else x

/-- Left fold computing the value of a most-significant-first digit list. -/
def dfold (a : Nat) (l : List Nat) : Nat :=
  l.foldl (fun x d => x * 10 + d) a

/-- The pure field assignment performed by the column switch when it neither
errors nor panics. -/
def setCol (d v : String) (r : RoutingTable) : RoutingTable :=
  if d = "Iface" then { r with iface := v }
  else if d = "Destination" then { r with destination := v }
  else if d = "Gateway" then { r with gateway := DecimalToIP (parseIntGo v 16 64).1 }
  else if d = "Flags" then
    { r with flags := (computeRouteFlag (parseIntGo v 10 16).1).getD [] }
  else if d = "RefCnt" then { r with refCnt := (parseIntGo v 10 8).1 }
  else if d = "Use" then { r with use := (parseIntGo v 10 8).1 }
  else if d = "Metric" then { r with metric := (parseIntGo v 10 8).1 }
  else if d = "Mask" then { r with mask := v }
  else if d = "MTU" then { r with mtu := (parseIntGo v 10 8).1 }
  else if d = "Window" then { r with window := (parseIntGo v 10 8).1 }
  else if d = "IRTT" then { r with irtt := (parseIntGo v 10 8).1 }
  else r

/-- Decides whether processing the column `(d, v)` neither errors nor panics
(the outcome does not depend on the row being updated). -/
def colGood (d v : String) : Bool :=
  match applyColumn d v emptyRow with
  | GoResult.ok _ => true
  | GoResult.err _ => false
  | GoResult.crash _ => false

/-- The column loop expressed over (header name, value) pairs. -/
def parsePairs : List (String × String) → RoutingTable → GoResult RoutingTable
  | [], r => GoResult.ok r
  | (d, v) :: ps, r =>
    match applyColumn d v r with
    | GoResult.ok r2 => parsePairs ps r2
    | GoResult.err m => GoResult.err m
    | GoResult.crash m => GoResult.crash m

/-- The (trimmed header name, raw value) pairs a row parse consumes. -/
def trimZip (ds cs : List String) : List (String × String) :=
  (ds.map (fun s => String.mk (trimGo s.data))).zip cs

/-- Helper: the counter loop panics as soon as its index list reaches an index
past the end of the 8-element `routeFlags` table. -/
theorem crfGo_none_of_mem_ge (is : List Nat) (counter : Int) (acc : List RouteFlag)
    (h : ∃ i ∈ is, 8 ≤ i) : crfGo is counter acc = none := by
  induction is generalizing counter acc with
  | nil => rcases h with ⟨i, hi, _⟩; cases hi
  | cons i is ih =>
    rcases h with ⟨j, hj, hj8⟩
    rcases List.mem_cons.mp hj with rfl | hj2
    · have hrf : routeFlags[j]? = none := by
        apply List.getElem?_eq_none
        simpa [routeFlags] using hj8
      simp [crfGo, hrf]
    · simp only [crfGo]
      cases hrf : routeFlags[i]? with
      | none => rfl
      | some rf =>
        by_cases hc : counter = rf.bit <;> simp [hc, ih _ _ ⟨j, hj2, hj8⟩]

/-- Helper: on the in-range inputs 0..8 the decoder returns one of exactly
three flag lists. -/
theorem computeRouteFlag_cases (b : Int) (h0 : 0 ≤ b) (h8 : b ≤ 8) :
    computeRouteFlag b = some [] ∨ computeRouteFlag b = some [uFlag] ∨
      computeRouteFlag b = some [uFlag, gFlag] := by
  interval_cases b <;> decide

/-- Helper: every flag list the decoder can return without panicking is
`[]`, `[uFlag]`, or `[uFlag, gFlag]`. -/
theorem computeRouteFlag_image (b : Int) (l : List RouteFlag)
    (h : computeRouteFlag b = some l) :
    l = [] ∨ l = [uFlag] ∨ l = [uFlag, gFlag] := by
  by_cases h8 : b ≤ 8
  · by_cases h0 : 0 ≤ b
    · rcases computeRouteFlag_cases b h0 h8 with hc | hc | hc <;>
        · rw [hc] at h
          cases Option.some.inj h
          decide
    · have hz : b.toNat = 0 := Int.toNat_of_nonpos (by omega)
      rw [computeRouteFlag, hz] at h
      simp only [List.range_zero, crfGo, Option.some.injEq] at h
      exact Or.inl h.symm
  · exfalso
    have : computeRouteFlag b = none := by
      apply crfGo_none_of_mem_ge
      exact ⟨8, List.mem_range.mpr (by omega), le_refl 8⟩
    rw [this] at h
    cases h


/-- C9: `computeRouteFlag` is total only on 0..8: every parsed Flags value
greater than 8 makes its loop index past the end of the 8-element `routeFlags`
table (a runtime panic, modelled by `none`), while 0..8 return a flag list. -/
theorem C9_computeRouteFlag_only_total_on_0_to_8 (b : Int) :
    (8 < b → computeRouteFlag b = none) ∧
    (0 ≤ b → b ≤ 8 → (computeRouteFlag b).isSome = true) := by
  constructor
  · intro hb
    apply crfGo_none_of_mem_ge
    exact ⟨8, List.mem_range.mpr (by omega), le_refl 8⟩
  · intro h0 h8
    interval_cases b <;> decide

/-- C9 witness: the decoder panics on 9 and succeeds on 3. -/
theorem C9_witness :
    computeRouteFlag 9 = none ∧ (computeRouteFlag 3).isSome = true :=
  ⟨(C9_computeRouteFlag_only_total_on_0_to_8 9).1 (by norm_num),
   (C9_computeRouteFlag_only_total_on_0_to_8 3).2 (by norm_num) (by norm_num)⟩

/-- C2 (code bug): the decoder does not test bits.  Bitmask 3 does decode to
`[Up, Gateway]`, but bitmask 7 also yields `[Up, Gateway]` (the Host flag is
lost), as does bitmask 4 (whose only set bit is Host). -/
theorem C2_flag_decoder_eval :
    computeRouteFlag 3 = some [uFlag, gFlag] ∧
    computeRouteFlag 7 = some [uFlag, gFlag] ∧
    computeRouteFlag 4 = some [uFlag, gFlag] ∧
    computeRouteFlag 7 ≠ some [uFlag, gFlag, hFlag] := by
  refine ⟨by decide, by decide, by decide, by decide⟩

/-- C6 counterexample: parsing the header row followed by a trailing newline
yields one zero-valued entry (the blank final line is parsed as a data row),
not an empty entry sequence. -/
theorem C6_counterexample :
    GetLinuxRoutingTable (stdHeader ++ "\n") = GoRet.ret [emptyRow] none ∧
    GoRet.ret [emptyRow] (none : Option String) ≠
      GoRet.ret ([] : List RoutingTable) none := by
  refine ⟨by decide, by decide⟩

/-- C6 amended: header-only input without a trailing newline parses to the
empty entry sequence with no error; with a trailing newline the blank final
line contributes one zero-valued entry, still with no error. -/
theorem C6_header_only :
    GetLinuxRoutingTable stdHeader = GoRet.ret [] none ∧
    GetLinuxRoutingTable (stdHeader ++ "\n") = GoRet.ret [emptyRow] none := by
  refine ⟨by decide, by decide⟩

/-- C3 counterexample: the empty parsed entry sequence (header-only input)
vacuously has no Up+Gateway entry, yet the public functions panic on `rt[0]`
instead of returning the empty string with a not-found error. -/
theorem C3_counterexample :
    GetLinuxRoutingTable stdHeader = GoRet.ret [] none ∧
    FindLinuxDefaultGW stdHeader = GoRet.crash "index out of range" ∧
    FindLinuxDefaultGGWInterface stdHeader = GoRet.crash "index out of range" := by
  refine ⟨by decide, by decide, by decide⟩

/-- C7 counterexample: two tables whose header-name/column pairs are
permutations of each other parse to different outcomes: with the bad Gateway
value first the parser returns an error, with the overflowing Flags value
first it panics in the flag decoder. -/
theorem C7_counterexample :
    (["Iface", "Gateway", "Flags"].zip ["eth0", "zz", "9"]).Perm
      (["Iface", "Flags", "Gateway"].zip ["eth0", "9", "zz"]) ∧
    GetLinuxRoutingTable "Iface\tGateway\tFlags\neth0\tzz\t9"
      = GoRet.ret [] (some (numErrMsg "zz" NumErr.badSyn)) ∧
    GetLinuxRoutingTable "Iface\tFlags\tGateway\neth0\t9\tzz"
      = GoRet.crash "index out of range" := by
  refine ⟨by decide, by decide, by decide⟩

/-- C4: `DecimalToIP` emits byte 0 of the integer as the first octet and each
successive 8-bit shift as the next octet, and decodes the fixture hex values
`0100000A` to `10.0.0.1` and `00000000` to `0.0.0.0`. -/
theorem C4_decimalToIP_octets (a b c d : Nat)
    (ha : a < 256) (hb : b < 256) (hc : c < 256) (hd : d < 256) :
    DecimalToIP ((a : Int) + 256 * b + 65536 * c + 16777216 * d)
      = toString a ++ "." ++ toString b ++ "." ++ toString c ++ "." ++ toString d ∧
    DecimalToIP (parseIntGo "0100000A" 16 64).1 = "10.0.0.1" ∧
    DecimalToIP (parseIntGo "00000000" 16 64).1 = "0.0.0.0" := by
  refine ⟨?_, by decide, by decide⟩
  have h0 : (((a : Int) + 256 * b + 65536 * c + 16777216 * d) % 256).toNat = a := by omega
  have h1 : ((((a : Int) + 256 * b + 65536 * c + 16777216 * d) / 256) % 256).toNat = b := by
    omega
  have h2 : ((((a : Int) + 256 * b + 65536 * c + 16777216 * d) / 65536) % 256).toNat = c := by
    omega
  have h3 : ((((a : Int) + 256 * b + 65536 * c + 16777216 * d) / 16777216) % 256).toNat = d := by
    omega
  simp only [DecimalToIP]
  rw [h0, h1, h2, h3]

/-- C4 witness: the octet law applied at the bytes of `10.0.0.1`. -/
theorem C4_witness :
    DecimalToIP (((10 : Nat) : Int) + 256 * ((0 : Nat) : Int) + 65536 * ((0 : Nat) : Int)
        + 16777216 * ((1 : Nat) : Int))
      = toString (10 : Nat) ++ "." ++ toString (0 : Nat) ++ "." ++ toString (0 : Nat)
        ++ "." ++ toString (1 : Nat) :=
  (C4_decimalToIP_octets 10 0 0 1 (by norm_num) (by norm_num) (by norm_num) (by norm_num)).1

/-- C10: on both failure paths `getDefaultGW` indexes element 0 of the table:
a parser error always comes with a nil table, and then the public functions
panic with an index-out-of-range instead of returning the error; likewise for
an empty table with no Up+Gateway entry. -/
theorem C10_failure_paths_index_zero :
    (∀ (t : String) (rt : List RoutingTable) (e : String),
        GetLinuxRoutingTable t = GoRet.ret rt (some e) → rt = []) ∧
    (∀ e : String,
        FindLinuxDefaultGWFrom (GoRet.ret [] (some e)) = GoRet.crash "index out of range" ∧
        FindLinuxDefaultGGWInterfaceFrom (GoRet.ret [] (some e))
          = GoRet.crash "index out of range") ∧
    FindLinuxDefaultGWFrom (GoRet.ret [] none) = GoRet.crash "index out of range" ∧
    FindLinuxDefaultGGWInterfaceFrom (GoRet.ret [] none)
      = GoRet.crash "index out of range" := by
  refine ⟨?_, fun e => ⟨rfl, rfl⟩, rfl, rfl⟩
  intro t rt e h
  unfold GetLinuxRoutingTable at h
  cases hp : parseRows (descriptionOf t) (rowsOf t) with
  | ok w =>
    rw [hp] at h
    simp only [goTableRet] at h
    injection h with h1 h2
    cases h2
  | err m =>
    rw [hp] at h
    simp only [goTableRet] at h
    injection h with h1 h2
    exact h1.symm
  | crash m =>
    rw [hp] at h
    simp only [goTableRet] at h
    cases h

/-- C10 witness: a concrete table with a bad Gateway value produces a parse
error with a nil table, and the selector panics on the error payload. -/
theorem C10_witness :
    ([] : List RoutingTable) = [] ∧
    FindLinuxDefaultGWFrom (GoRet.ret [] (some "parse failure"))
      = GoRet.crash "index out of range" :=
  ⟨C10_failure_paths_index_zero.1 "Iface\tGateway\neth0\tzz" []
      (numErrMsg "zz" NumErr.badSyn) (by decide),
   (C10_failure_paths_index_zero.2.1 "parse failure").1⟩

/-- Helper: the sticky-flag scan still returns the first entry satisfying the
combined Up+Gateway predicate, for entry lists whose flag sets all lie in the
image of `computeRouteFlag`. -/
theorem gwScan_finds_first (rt : List RoutingTable) (up : Bool)
    (himg : ∀ r ∈ rt, ∃ b : Int, computeRouteFlag b = some r.flags)
    (e : RoutingTable)
    (hfind : rt.find? (fun r => flagContains r.flags "U" && flagContains r.flags "G")
      = some e) :
    gwScan rt up false = some e := by
  induction rt generalizing up with
  | nil => cases hfind
  | cons v vs ih =>
    obtain ⟨b, hb⟩ := himg v (List.mem_cons_self _ _)
    have himg2 : ∀ r ∈ vs, ∃ b : Int, computeRouteFlag b = some r.flags :=
      fun r hr => himg r (List.mem_cons_of_mem _ hr)
    rcases computeRouteFlag_image b v.flags hb with hf | hf | hf
    · have hU : flagContains v.flags "U" = false := by rw [hf]; decide
      have hG : flagContains v.flags "G" = false := by rw [hf]; decide
      have hfind2 : List.find?
          (fun r => flagContains r.flags "U" && flagContains r.flags "G") vs = some e := by
        simpa [List.find?, hU, hG] using hfind
      have hstep : gwScan (v :: vs) up false = gwScan vs up false := by
        simp [gwScan, hU, hG]
      rw [hstep]
      exact ih _ himg2 hfind2
    · have hU : flagContains v.flags "U" = true := by rw [hf]; decide
      have hG : flagContains v.flags "G" = false := by rw [hf]; decide
      have hfind2 : List.find?
          (fun r => flagContains r.flags "U" && flagContains r.flags "G") vs = some e := by
        simpa [List.find?, hU, hG] using hfind
      have hstep : gwScan (v :: vs) up false = gwScan vs true false := by
        simp [gwScan, hU, hG]
      rw [hstep]
      exact ih _ himg2 hfind2
    · have hU : flagContains v.flags "U" = true := by rw [hf]; decide
      have hG : flagContains v.flags "G" = true := by rw [hf]; decide
      have hstep : gwScan (v :: vs) up false = some v := by
        simp [gwScan, hU, hG]
      rw [hstep]
      simpa [List.find?, hU, hG] using hfind

/-- C1: for entry sequences produced by the parser (each entry's flag set is an
output of `computeRouteFlag`), the selector scans in order and returns the
first entry whose own flag set contains both Up and Gateway, and the public
functions surface that entry's gateway address and interface name. -/
theorem C1_selector_first_up_gateway (rt : List RoutingTable)
    (himg : ∀ r ∈ rt, ∃ b : Int, computeRouteFlag b = some r.flags)
    (e : RoutingTable)
    (hfind : rt.find? (fun r => flagContains r.flags "U" && flagContains r.flags "G")
      = some e) :
    getDefaultGWFrom (GoRet.ret rt none) = GoRet.ret e none ∧
    FindLinuxDefaultGWFrom (GoRet.ret rt none) = GoRet.ret e.gateway none ∧
    FindLinuxDefaultGGWInterfaceFrom (GoRet.ret rt none) = GoRet.ret e.iface none := by
  have hscan := gwScan_finds_first rt false himg e hfind
  have h1 : getDefaultGWFrom (GoRet.ret rt none) = GoRet.ret e none := by
    simp only [getDefaultGWFrom, hscan]
  refine ⟨h1, ?_, ?_⟩
  · simp only [FindLinuxDefaultGWFrom, h1]
  · simp only [FindLinuxDefaultGGWInterfaceFrom, h1]

/-- C1 witness: with a first entry flagged Up only and a second flagged
Up+Gateway, the selector returns the second entry. -/
theorem C1_witness :
    getDefaultGWFrom
        (GoRet.ret [{ emptyRow with flags := [uFlag] },
          { emptyRow with flags := [uFlag, gFlag] }] none)
      = GoRet.ret { emptyRow with flags := [uFlag, gFlag] } none := by
  refine (C1_selector_first_up_gateway _ ?_ _ ?_).1
  · intro r hr
    simp only [List.mem_cons, List.mem_singleton] at hr
    rcases hr with rfl | rfl | hr
    · exact ⟨1, by decide⟩
    · exact ⟨3, by decide⟩
    · cases hr
  · decide

/-- Helper: when every entry's flag list is `[]` or `[uFlag]`, the scan loop
never fires. -/
theorem gwScan_none_of_no_G (rt : List RoutingTable) (up : Bool)
    (hflags : ∀ r ∈ rt, r.flags = [] ∨ r.flags = [uFlag]) :
    gwScan rt up false = none := by
  induction rt generalizing up with
  | nil => rfl
  | cons v vs ih =>
    have hflags2 : ∀ r ∈ vs, r.flags = [] ∨ r.flags = [uFlag] :=
      fun r hr => hflags r (List.mem_cons_of_mem _ hr)
    have hG : flagContains v.flags "G" = false := by
      rcases hflags v (List.mem_cons_self _ _) with hf | hf <;> rw [hf] <;> decide
    have hstep : gwScan (v :: vs) up false
        = gwScan vs (up || flagContains v.flags "U") false := by
      simp [gwScan, hG]
    rw [hstep]
    exact ih _ hflags2

/-- C3 amended: for every non-empty parser-produced entry sequence with no
Up+Gateway entry, `getDefaultGW` fails with the distinct
"could not locate default GW" error and both public functions return the
empty string together with that error. -/
theorem C3_amended_not_found (rt : List RoutingTable)
    (himg : ∀ r ∈ rt, ∃ b : Int, computeRouteFlag b = some r.flags)
    (hne : rt ≠ [])
    (hno : ∀ r ∈ rt,
      ¬(flagContains r.flags "U" = true ∧ flagContains r.flags "G" = true)) :
    FindLinuxDefaultGWFrom (GoRet.ret rt none)
      = GoRet.ret "" (some "could not locate default GW") ∧
    FindLinuxDefaultGGWInterfaceFrom (GoRet.ret rt none)
      = GoRet.ret "" (some "could not locate default GW") := by
  have hflags : ∀ r ∈ rt, r.flags = [] ∨ r.flags = [uFlag] := by
    intro r hr
    obtain ⟨b, hb⟩ := himg r hr
    rcases computeRouteFlag_image b r.flags hb with hf | hf | hf
    · exact Or.inl hf
    · exact Or.inr hf
    · exact absurd ⟨by rw [hf]; decide, by rw [hf]; decide⟩ (hno r hr)
  have hscan := gwScan_none_of_no_G rt false hflags
  obtain ⟨v0, rest, rfl⟩ : ∃ v0 rest, rt = v0 :: rest := by
    cases rt with
    | nil => exact absurd rfl hne
    | cons a l => exact ⟨a, l, rfl⟩
  have hget : getDefaultGWFrom (GoRet.ret (v0 :: rest) none)
      = GoRet.ret v0 (some "could not locate default GW") := by
    simp only [getDefaultGWFrom, hscan, List.head?_cons]
  constructor
  · simp only [FindLinuxDefaultGWFrom, hget]
  · simp only [FindLinuxDefaultGGWInterfaceFrom, hget]

/-- C3 witness: a single zero-flag entry produces the not-found error and the
empty string from the public gateway accessor. -/
theorem C3_witness :
    FindLinuxDefaultGWFrom (GoRet.ret [emptyRow] none)
      = GoRet.ret "" (some "could not locate default GW") := by
  refine (C3_amended_not_found [emptyRow] ?_ (by decide) ?_).1
  · intro r hr
    simp only [List.mem_singleton] at hr
    subst hr
    exact ⟨0, by decide⟩
  · intro r hr
    simp only [List.mem_singleton] at hr
    subst hr
    decide

/-- Helper: `String.mk` inverts `String.data`. -/
theorem strMkData (s : String) : String.mk s.data = s := by cases s; rfl

/-- Helper: splitting a separator-free list returns it as the only chunk. -/
theorem splitChar_no_sep (sep : Char) (xs : List Char) (h : sep ∉ xs) :
    splitChar sep xs = [xs] := by
  induction xs with
  | nil => rfl
  | cons c cs ih =>
    rw [List.mem_cons, not_or] at h
    have hc : ¬(c = sep) := fun hq => h.1 hq.symm
    simp [splitChar, hc, ih h.2]

/-- Helper: splitting a list that starts with a separator-free chunk followed
by the separator yields that chunk, then the split of the remainder. -/
theorem splitChar_append_sep (sep : Char) (xs rest : List Char) (h : sep ∉ xs) :
    splitChar sep (xs ++ sep :: rest) = xs :: splitChar sep rest := by
  induction xs with
  | nil => simp [splitChar]
  | cons c cs ih =>
    rw [List.mem_cons, not_or] at h
    have hc : ¬(c = sep) := fun hq => h.1 hq.symm
    simp [splitChar, hc, ih h.2]

/-- C5 counterexample: a table whose second data row has the non-hex Gateway
value "zz", but whose first data row carries the panicking Flags value 9: the
parser crashes with an index-out-of-range instead of returning a parse
error. -/
theorem C5_counterexample :
    (parseIntGo "zz" 16 64).2 = some NumErr.badSyn ∧
    GetLinuxRoutingTable "Iface\tGateway\tFlags\neth0\tAA\t9\neth0\tzz\t0"
      = GoRet.crash "index out of range" := by
  refine ⟨by decide, by decide⟩

/-- C5 amended: for every Gateway value that is not valid hexadecimal text
(and contains no tab or newline, and does not make the row contain "Iface"),
parsing the standard-header table with that single data row returns the parse
error built from that value — whose message textually contains the offending
value — together with a nil entry list; no panic, and no partial entries. -/
theorem C5_amended_bad_gateway (v : String) (e : NumErr)
    (hv : (parseIntGo v 16 64).2 = some e)
    (ht : '\t' ∉ v.data) (hn : '\n' ∉ v.data)
    (hif : containsSubstr (mkBadRow v) "Iface" = false) :
    GetLinuxRoutingTable (stdHeader ++ "\n" ++ mkBadRow v)
      = GoRet.ret [] (some (numErrMsg v e)) ∧
    (∃ pre suf : List Char, (numErrMsg v e).data = pre ++ (v.data ++ suf)) := by
  have hx : parseIntGo v 16 64 = ((parseIntGo v 16 64).1, some e) := by
    rw [← hv]
  have hdata : (stdHeader ++ "\n" ++ mkBadRow v).data
      = stdHeader.data ++ '\n' :: (mkBadRow v).data := by
    simp [String.data_append, List.append_assoc]
  have hnrow : '\n' ∉ (mkBadRow v).data := by
    intro hmem
    rw [mkBadRow, String.data_append] at hmem
    rcases List.mem_append.mp hmem with hmem | hmem
    · revert hmem; decide
    · exact hn hmem
  have hrows : rowsOf (stdHeader ++ "\n" ++ mkBadRow v) = [stdHeader, mkBadRow v] := by
    rw [rowsOf, hdata, splitChar_append_sep _ _ _ (by decide),
      splitChar_no_sep _ _ hnrow]
    simp [strMkData]
  have hdescr : descriptionOf (stdHeader ++ "\n" ++ mkBadRow v)
      = ["Iface", "Destination", "Gateway", "Flags", "RefCnt", "Use", "Metric",
         "Mask", "MTU", "Window", "IRTT"] := by
    rw [descriptionOf, hrows]
    rfl
  have hrowdata : (mkBadRow v).data
      = "eth0".data ++ '\t' :: ("00000000".data ++ '\t' :: v.data) := by
    rw [mkBadRow, String.data_append]
    rfl
  have hsplit : (splitChar '\t' (mkBadRow v).data).map String.mk
      = ["eth0", "00000000", v] := by
    rw [hrowdata, splitChar_append_sep _ _ _ (by decide),
      splitChar_append_sep _ _ _ (by decide), splitChar_no_sep _ _ ht]
    simp [strMkData]
  obtain ⟨x, hx2⟩ : ∃ x, parseIntGo v 16 64 = (x, some e) :=
    ⟨(parseIntGo v 16 64).1, hx⟩
  have happ : applyColumn "Gateway" v
      (⟨"eth0", "00000000", "", [], 0, 0, 0, "", 0, 0, 0⟩ : RoutingTable)
      = GoResult.err (numErrMsg v e) := by
    simp [applyColumn, hx2]
  have e3 : parseColumns
      ["Gateway", "Flags", "RefCnt", "Use", "Metric", "Mask", "MTU", "Window",
       "IRTT"] [v] (⟨"eth0", "00000000", "", [], 0, 0, 0, "", 0, 0, 0⟩ : RoutingTable)
      = GoResult.err (numErrMsg v e) := by
    have htrim : String.mk (trimGo "Gateway".data) = "Gateway" := rfl
    simp only [parseColumns, htrim, happ]
  have hrow : parseColumns
      ["Iface", "Destination", "Gateway", "Flags", "RefCnt", "Use", "Metric",
       "Mask", "MTU", "Window", "IRTT"] ["eth0", "00000000", v] emptyRow
      = GoResult.err (numErrMsg v e) := by
    have e1 : parseColumns
        ["Iface", "Destination", "Gateway", "Flags", "RefCnt", "Use", "Metric",
         "Mask", "MTU", "Window", "IRTT"] ["eth0", "00000000", v] emptyRow
        = parseColumns
            ["Gateway", "Flags", "RefCnt", "Use", "Metric", "Mask", "MTU",
             "Window", "IRTT"] [v]
            (⟨"eth0", "00000000", "", [], 0, 0, 0, "", 0, 0, 0⟩ : RoutingTable) := by
      have ha1 : applyColumn (String.mk (trimGo "Iface".data)) "eth0" emptyRow
          = GoResult.ok (⟨"eth0", "", "", [], 0, 0, 0, "", 0, 0, 0⟩ : RoutingTable) := rfl
      have ha2 : applyColumn (String.mk (trimGo "Destination".data)) "00000000"
          (⟨"eth0", "", "", [], 0, 0, 0, "", 0, 0, 0⟩ : RoutingTable)
          = GoResult.ok
            (⟨"eth0", "00000000", "", [], 0, 0, 0, "", 0, 0, 0⟩ : RoutingTable) := rfl
      simp only [parseColumns, ha1, ha2]
    rw [e1, e3]
  have hpr : parseRows
      ["Iface", "Destination", "Gateway", "Flags", "RefCnt", "Use", "Metric",
       "Mask", "MTU", "Window", "IRTT"] [stdHeader, mkBadRow v]
      = GoResult.err (numErrMsg v e) := by
    simp [parseRows, (by decide : containsSubstr stdHeader "Iface" = true), hif,
      hsplit, hrow]
  constructor
  · simp only [GetLinuxRoutingTable, hdescr, hrows, hpr, goTableRet]
  · refine ⟨"strconv.ParseInt: parsing \"".data,
      ("\": ").data ++ (match e with
        | NumErr.badSyn => "invalid syntax"
        | NumErr.outOfRange => "value out of range").data, ?_⟩
    cases e <;> simp [numErrMsg, String.data_append, List.append_assoc]

/-- C5 witness: the concrete non-hex Gateway value "zz". -/
theorem C5_witness :
    GetLinuxRoutingTable (stdHeader ++ "\n" ++ mkBadRow "zz")
      = GoRet.ret [] (some (numErrMsg "zz" NumErr.badSyn)) :=
  (C5_amended_bad_gateway "zz" NumErr.badSyn (by decide) (by decide) (by decide)
    (by decide)).1

/-- Helper: every digit value emitted by `natDigitsAux` is below 10. -/
theorem natDigitsAux_lt (fuel : Nat) :
    ∀ n, n < fuel → ∀ d ∈ natDigitsAux fuel n, d < 10 := by
  induction fuel with
  | zero => intro n hn d hd; omega
  | succ f ih =>
    intro n hn d hd
    by_cases h10 : n < 10
    · simp [natDigitsAux, h10] at hd
      omega
    · simp [natDigitsAux, h10] at hd
      rcases hd with hd | hd
      · exact ih (n / 10) (by omega) d hd
      · omega

/-- Helper: `natDigitsAux` with sufficient fuel is never empty. -/
theorem natDigitsAux_ne_nil (fuel : Nat) :
    ∀ n, n < fuel → natDigitsAux fuel n ≠ [] := by
  induction fuel with
  | zero => intro n hn; exact absurd hn (Nat.not_lt_zero n)
  | succ f ih =>
    intro n hn
    by_cases h10 : n < 10 <;> simp [natDigitsAux, h10]

/-- Helper: folding the digits of `n` recovers `n`. -/
theorem dfold_natDigitsAux (fuel : Nat) :
    ∀ n, n < fuel → dfold 0 (natDigitsAux fuel n) = n := by
  induction fuel with
  | zero => intro n hn; exact absurd hn (Nat.not_lt_zero n)
  | succ f ih =>
    intro n hn
    by_cases h10 : n < 10
    · simp [natDigitsAux, h10, dfold]
    · have hrec : List.foldl (fun x d => x * 10 + d) 0 (natDigitsAux f (n / 10)) = n / 10 :=
        ih (n / 10) (by omega)
      simp only [natDigitsAux, if_neg h10, dfold, List.foldl_append, List.foldl_cons,
        List.foldl_nil, hrec]
      omega

/-- Helper: digit values of `natDigitList` are below 10. -/
theorem natDigitList_lt (n : Nat) : ∀ d ∈ natDigitList n, d < 10 :=
  natDigitsAux_lt (n + 1) n (Nat.lt_succ_self n)

/-- Helper: `natDigitList` is never empty. -/
theorem natDigitList_ne_nil (n : Nat) : natDigitList n ≠ [] :=
  natDigitsAux_ne_nil (n + 1) n (Nat.lt_succ_self n)

/-- Helper: folding `natDigitList n` recovers `n`. -/
theorem dfold_natDigitList (n : Nat) : dfold 0 (natDigitList n) = n :=
  dfold_natDigitsAux (n + 1) n (Nat.lt_succ_self n)

/-- Helper: `digitVal` decodes the decimal digit characters. -/
theorem digitVal_digitChar (d : Nat) (hd : d < 10) :
    digitVal 10 (digitChar d) = some d := by
  interval_cases d <;> decide

/-- Helper: the fold value only grows from its accumulator. -/
theorem dfold_ge (l : List Nat) : ∀ a, a ≤ dfold a l := by
  induction l with
  | nil => intro a; simp [dfold]
  | cons d ds ih =>
    intro a
    have h2 := ih (a * 10 + d)
    simp only [dfold, List.foldl_cons] at h2 ⊢
    omega

/-- Helper: the `ParseUint` accumulation loop on a valid digit string computes
the digit value, clamped at `maxVal` with a range error. -/
theorem goParseUintLoop_digits (l : List Nat) :
    ∀ a maxVal : Nat, (∀ d ∈ l, d < 10) → a ≤ maxVal →
    goParseUintLoop 10 maxVal (l.map digitChar) a
      = if dfold a l ≤ maxVal then (dfold a l, none)
        else (maxVal, some NumErr.outOfRange) := by
  induction l with
  | nil =>
    intro a maxVal hv ha
    simp [goParseUintLoop, dfold, ha]
  | cons d ds ih =>
    intro a maxVal hv ha
    have hd : d < 10 := hv d (List.mem_cons_self _ _)
    simp only [List.map_cons, goParseUintLoop, digitVal_digitChar d hd]
    by_cases hover : a * 10 + d > maxVal
    · rw [if_pos hover]
      have hge := dfold_ge ds (a * 10 + d)
      have hno : ¬(dfold a (d :: ds) ≤ maxVal) := by
        simp only [dfold, List.foldl_cons] at *
        omega
      rw [if_neg hno]
    · rw [if_neg hover]
      have hr := ih (a * 10 + d) maxVal (fun q hq => hv q (List.mem_cons_of_mem _ hq))
        (by omega)
      rw [hr]
      simp only [dfold, List.foldl_cons]

/-- Helper: `ParseUint` on the decimal digit string of `n` returns `n`, clamped
to the requested bit width with a range error. -/
theorem parseUintGo_digits (n bitSize : Nat) :
    parseUintGo ((natDigitList n).map digitChar) 10 bitSize
      = if n ≤ 2 ^ bitSize - 1 then (n, none)
        else (2 ^ bitSize - 1, some NumErr.outOfRange) := by
  obtain ⟨d0, ds, hcons⟩ := List.exists_cons_of_ne_nil (natDigitList_ne_nil n)
  have hloop := goParseUintLoop_digits (natDigitList n) 0 (2 ^ bitSize - 1)
    (natDigitList_lt n) (Nat.zero_le _)
  rw [dfold_natDigitList] at hloop
  rw [hcons] at hloop ⊢
  simp only [List.map_cons] at hloop ⊢
  simp only [parseUintGo]
  exact hloop

/-- Helper: `strconv.ParseInt` at bit size 8 on the decimal representation of
any integer returns the value saturated to `[-128, 127]`, with a range error
exactly when the value was out of range. -/
theorem parseIntGo_decString8 (x : Int) :
    parseIntGo (decString x) 10 8
      = (clamp8 x, if -128 ≤ x ∧ x ≤ 127 then none else some NumErr.outOfRange) := by
  have hpu := parseUintGo_digits x.natAbs 8
  norm_num at hpu
  obtain ⟨d0, ds, hcons⟩ := List.exists_cons_of_ne_nil (natDigitList_ne_nil x.natAbs)
  have hd0 : d0 < 10 := natDigitList_lt x.natAbs d0
    (by rw [hcons]; exact List.mem_cons_self _ _)
  have hd0m : ¬(digitChar d0 = '-') := by
    intro hq
    have h1 := digitVal_digitChar d0 hd0
    rw [hq] at h1
    cases h1
  have hd0p : ¬(digitChar d0 = '+') := by
    intro hq
    have h1 := digitVal_digitChar d0 hd0
    rw [hq] at h1
    cases h1
  by_cases hneg : x < 0
  · have hdata : (decString x).data = '-' :: (natDigitList x.natAbs).map digitChar := by
      simp [decString, hneg]
    by_cases h255 : x.natAbs ≤ 255
    · rw [if_pos h255] at hpu
      by_cases h128 : 128 < x.natAbs
      · have hc : clamp8 x = -128 := by unfold clamp8; split_ifs <;> omega
        have hr : (if -128 ≤ x ∧ x ≤ 127 then (none : Option NumErr)
            else some NumErr.outOfRange) = some NumErr.outOfRange := by
          rw [if_neg]; omega
        simp only [parseIntGo, hdata, true_or, not_true, false_and, true_and,
          if_true, if_false, ite_true, ite_false]
        rw [hpu, hc, hr]
        simp [h128]
      · have hxc : clamp8 x = x := by unfold clamp8; split_ifs <;> omega
        have hr : (if -128 ≤ x ∧ x ≤ 127 then (none : Option NumErr)
            else some NumErr.outOfRange) = none := by
          rw [if_pos]; omega
        have hxm : -((x.natAbs : Nat) : Int) = x := by omega
        simp only [parseIntGo, hdata, true_or, not_true, false_and, true_and,
          if_true, if_false, ite_true, ite_false]
        rw [hpu, hxc, hr]
        simp [h128, abs_of_neg hneg]
    · rw [if_neg h255] at hpu
      have hc : clamp8 x = -128 := by unfold clamp8; split_ifs <;> omega
      have hr : (if -128 ≤ x ∧ x ≤ 127 then (none : Option NumErr)
          else some NumErr.outOfRange) = some NumErr.outOfRange := by
        rw [if_neg]; omega
      simp only [parseIntGo, hdata, true_or, not_true, false_and, true_and,
        if_true, if_false, ite_true, ite_false]
      rw [hpu, hc, hr]
      simp
  · have hdata : (decString x).data = digitChar d0 :: ds.map digitChar := by
      simp only [decString, if_neg hneg, hcons, List.map_cons]
    have hmap : digitChar d0 :: ds.map digitChar
        = (natDigitList x.natAbs).map digitChar := by
      rw [hcons, List.map_cons]
    by_cases h255 : x.natAbs ≤ 255
    · rw [if_pos h255] at hpu
      by_cases h128 : 128 ≤ x.natAbs
      · have hc : clamp8 x = 127 := by unfold clamp8; split_ifs <;> omega
        have hr : (if -128 ≤ x ∧ x ≤ 127 then (none : Option NumErr)
            else some NumErr.outOfRange) = some NumErr.outOfRange := by
          rw [if_neg]; omega
        simp only [parseIntGo, hdata, hd0m, hd0p, or_self, not_false_eq_true,
          true_and, false_and, if_true, if_false, ite_true, ite_false]
        rw [hmap, hpu, hc, hr]
        simp [hd0m, h128]
      · have hxc : clamp8 x = x := by unfold clamp8; split_ifs <;> omega
        have hr : (if -128 ≤ x ∧ x ≤ 127 then (none : Option NumErr)
            else some NumErr.outOfRange) = none := by
          rw [if_pos]; omega
        have hxm : ((x.natAbs : Nat) : Int) = x := by omega
        simp only [parseIntGo, hdata, hd0m, hd0p, or_self, not_false_eq_true,
          true_and, false_and, if_true, if_false, ite_true, ite_false]
        rw [hmap, hpu, hxc, hr]
        simp [hd0m, h128, hxm]
    · rw [if_neg h255] at hpu
      have hc : clamp8 x = 127 := by unfold clamp8; split_ifs <;> omega
      have hr : (if -128 ≤ x ∧ x ≤ 127 then (none : Option NumErr)
          else some NumErr.outOfRange) = some NumErr.outOfRange := by
        rw [if_neg]; omega
      simp only [parseIntGo, hdata, hd0m, hd0p, or_self, not_false_eq_true,
        true_and, false_and, if_true, if_false, ite_true, ite_false]
      rw [hmap, hpu, hc, hr]
      simp [hd0m]

/-- C8: the six numeric counter columns (RefCnt, Use, Metric, MTU, Window,
IRTT) are parsed with `strconv.ParseInt(v, 10, 8)` into 8-bit fields: for
every integer given in decimal the stored field is the value clamped to the
signed 8-bit range `[-128, 127]`, and no error is surfaced for out-of-range
values. -/
theorem C8_counters_clamped (x : Int) (r : RoutingTable) :
    applyColumn "RefCnt" (decString x) r = GoResult.ok { r with refCnt := clamp8 x } ∧
    applyColumn "Use" (decString x) r = GoResult.ok { r with use := clamp8 x } ∧
    applyColumn "Metric" (decString x) r = GoResult.ok { r with metric := clamp8 x } ∧
    applyColumn "MTU" (decString x) r = GoResult.ok { r with mtu := clamp8 x } ∧
    applyColumn "Window" (decString x) r = GoResult.ok { r with window := clamp8 x } ∧
    applyColumn "IRTT" (decString x) r = GoResult.ok { r with irtt := clamp8 x } := by
  have h := parseIntGo_decString8 x
  refine ⟨?_, ?_, ?_, ?_, ?_, ?_⟩ <;> simp [applyColumn, h]

/-- C8 witness: the kernel value 300 is stored as 127 with no error. -/
theorem C8_witness :
    applyColumn "RefCnt" (decString 300) emptyRow
      = GoResult.ok { emptyRow with refCnt := 127 } := by
  have h := (C8_counters_clamped 300 emptyRow).1
  rwa [(by decide : clamp8 (300 : Int) = 127)] at h

/-- Helper: a good column assignment is exactly the pure field update, on any
row. -/
theorem applyColumn_ok (d v : String) (r : RoutingTable) (hg : colGood d v = true) :
    applyColumn d v r = GoResult.ok (setCol d v r) := by
  by_cases h1 : d = "Iface"
  · subst h1; rfl
  by_cases h2 : d = "Destination"
  · subst h2; rfl
  by_cases h3 : d = "Gateway"
  · subst h3
    rcases hpi : parseIntGo v 16 64 with ⟨val, oe⟩
    cases oe with
    | none =>
      have ha : applyColumn "Gateway" v r
          = GoResult.ok { r with gateway := DecimalToIP val } := by
        simp [applyColumn, hpi]
      have hs : setCol "Gateway" v r = { r with gateway := DecimalToIP val } := by
        simp [setCol, hpi]
      rw [ha, hs]
    | some e =>
      exfalso
      have hc2 : colGood "Gateway" v = false := by
        simp [colGood, applyColumn, hpi]
      rw [hc2] at hg
      simp at hg
  by_cases h4 : d = "Flags"
  · subst h4
    rcases hcf : computeRouteFlag (parseIntGo v 10 16).1 with _ | fs
    · exfalso
      have hc2 : colGood "Flags" v = false := by
        simp [colGood, applyColumn, hcf]
      rw [hc2] at hg
      simp at hg
    · have ha : applyColumn "Flags" v r = GoResult.ok { r with flags := fs } := by
        simp [applyColumn, hcf]
      have hs : setCol "Flags" v r = { r with flags := fs } := by
        simp [setCol, hcf]
      rw [ha, hs]
  by_cases h5 : d = "RefCnt"
  · subst h5; rfl
  by_cases h6 : d = "Use"
  · subst h6; rfl
  by_cases h7 : d = "Metric"
  · subst h7; rfl
  by_cases h8 : d = "Mask"
  · subst h8; rfl
  by_cases h9 : d = "MTU"
  · subst h9; rfl
  by_cases h10 : d = "Window"
  · subst h10; rfl
  by_cases h11 : d = "IRTT"
  · subst h11; rfl
  simp [applyColumn, setCol, h1, h2, h3, h4, h5, h6, h7, h8, h9, h10, h11]

/-- Helper: on all-good pairs the column loop is the pure left fold of the
field updates. -/
theorem parsePairs_ok (ps : List (String × String)) :
    ∀ r, (∀ p ∈ ps, colGood p.1 p.2 = true) →
    parsePairs ps r = GoResult.ok (ps.foldl (fun r p => setCol p.1 p.2 r) r) := by
  induction ps with
  | nil => intro r h; rfl
  | cons p ps ih =>
    intro r h
    obtain ⟨d, v⟩ := p
    simp only [parsePairs, applyColumn_ok d v r (h (d, v) (List.mem_cons_self _ _)),
      List.foldl_cons]
    exact ih _ (fun q hq => h q (List.mem_cons_of_mem _ hq))

/-- Helper: when the row has at most as many columns as the header, the
lockstep column loop is the pair loop over the trimmed zip. -/
theorem parseColumns_eq_parsePairs (cs : List String) :
    ∀ (ds : List String) (r : RoutingTable), cs.length ≤ ds.length →
    parseColumns ds cs r = parsePairs (trimZip ds cs) r := by
  induction cs with
  | nil =>
    intro ds r h
    cases ds <;> rfl
  | cons c cs ih =>
    intro ds r h
    cases ds with
    | nil => simp at h
    | cons d ds2 =>
      simp only [parseColumns, trimZip, List.map_cons, List.zip_cons_cons, parsePairs]
      cases happ : applyColumn (String.mk (trimGo d.data)) c r with
      | ok r2 =>
        have := ih ds2 r2 (by simpa using h)
        simpa [trimZip] using this
      | err m => rfl
      | crash m => rfl

/-- Helper: the `iface` field after a column assignment. -/
theorem setCol_iface (d v : String) (r : RoutingTable) :
    (setCol d v r).iface = if d = "Iface" then v else r.iface := by
  by_cases h1 : d = "Iface"
  · subst h1; rfl
  by_cases h2 : d = "Destination"
  · subst h2; rfl
  by_cases h3 : d = "Gateway"
  · subst h3; rfl
  by_cases h4 : d = "Flags"
  · subst h4; rfl
  by_cases h5 : d = "RefCnt"
  · subst h5; rfl
  by_cases h6 : d = "Use"
  · subst h6; rfl
  by_cases h7 : d = "Metric"
  · subst h7; rfl
  by_cases h8 : d = "Mask"
  · subst h8; rfl
  by_cases h9 : d = "MTU"
  · subst h9; rfl
  by_cases h10 : d = "Window"
  · subst h10; rfl
  by_cases h11 : d = "IRTT"
  · subst h11; rfl
  simp [setCol, h1, h2, h3, h4, h5, h6, h7, h8, h9, h10, h11]

/-- Helper: the `destination` field after a column assignment. -/
theorem setCol_destination (d v : String) (r : RoutingTable) :
    (setCol d v r).destination = if d = "Destination" then v else r.destination := by
  by_cases h1 : d = "Iface"
  · subst h1; rfl
  by_cases h2 : d = "Destination"
  · subst h2; rfl
  by_cases h3 : d = "Gateway"
  · subst h3; rfl
  by_cases h4 : d = "Flags"
  · subst h4; rfl
  by_cases h5 : d = "RefCnt"
  · subst h5; rfl
  by_cases h6 : d = "Use"
  · subst h6; rfl
  by_cases h7 : d = "Metric"
  · subst h7; rfl
  by_cases h8 : d = "Mask"
  · subst h8; rfl
  by_cases h9 : d = "MTU"
  · subst h9; rfl
  by_cases h10 : d = "Window"
  · subst h10; rfl
  by_cases h11 : d = "IRTT"
  · subst h11; rfl
  simp [setCol, h1, h2, h3, h4, h5, h6, h7, h8, h9, h10, h11]

/-- Helper: the `gateway` field after a column assignment. -/
theorem setCol_gateway (d v : String) (r : RoutingTable) :
    (setCol d v r).gateway = if d = "Gateway" then DecimalToIP (parseIntGo v 16 64).1 else r.gateway := by
  by_cases h1 : d = "Iface"
  · subst h1; rfl
  by_cases h2 : d = "Destination"
  · subst h2; rfl
  by_cases h3 : d = "Gateway"
  · subst h3; rfl
  by_cases h4 : d = "Flags"
  · subst h4; rfl
  by_cases h5 : d = "RefCnt"
  · subst h5; rfl
  by_cases h6 : d = "Use"
  · subst h6; rfl
  by_cases h7 : d = "Metric"
  · subst h7; rfl
  by_cases h8 : d = "Mask"
  · subst h8; rfl
  by_cases h9 : d = "MTU"
  · subst h9; rfl
  by_cases h10 : d = "Window"
  · subst h10; rfl
  by_cases h11 : d = "IRTT"
  · subst h11; rfl
  simp [setCol, h1, h2, h3, h4, h5, h6, h7, h8, h9, h10, h11]

/-- Helper: the `flags` field after a column assignment. -/
theorem setCol_flags (d v : String) (r : RoutingTable) :
    (setCol d v r).flags = if d = "Flags" then (computeRouteFlag (parseIntGo v 10 16).1).getD [] else r.flags := by
  by_cases h1 : d = "Iface"
  · subst h1; rfl
  by_cases h2 : d = "Destination"
  · subst h2; rfl
  by_cases h3 : d = "Gateway"
  · subst h3; rfl
  by_cases h4 : d = "Flags"
  · subst h4; rfl
  by_cases h5 : d = "RefCnt"
  · subst h5; rfl
  by_cases h6 : d = "Use"
  · subst h6; rfl
  by_cases h7 : d = "Metric"
  · subst h7; rfl
  by_cases h8 : d = "Mask"
  · subst h8; rfl
  by_cases h9 : d = "MTU"
  · subst h9; rfl
  by_cases h10 : d = "Window"
  · subst h10; rfl
  by_cases h11 : d = "IRTT"
  · subst h11; rfl
  simp [setCol, h1, h2, h3, h4, h5, h6, h7, h8, h9, h10, h11]

/-- Helper: the `refCnt` field after a column assignment. -/
theorem setCol_refCnt (d v : String) (r : RoutingTable) :
    (setCol d v r).refCnt = if d = "RefCnt" then (parseIntGo v 10 8).1 else r.refCnt := by
  by_cases h1 : d = "Iface"
  · subst h1; rfl
  by_cases h2 : d = "Destination"
  · subst h2; rfl
  by_cases h3 : d = "Gateway"
  · subst h3; rfl
  by_cases h4 : d = "Flags"
  · subst h4; rfl
  by_cases h5 : d = "RefCnt"
  · subst h5; rfl
  by_cases h6 : d = "Use"
  · subst h6; rfl
  by_cases h7 : d = "Metric"
  · subst h7; rfl
  by_cases h8 : d = "Mask"
  · subst h8; rfl
  by_cases h9 : d = "MTU"
  · subst h9; rfl
  by_cases h10 : d = "Window"
  · subst h10; rfl
  by_cases h11 : d = "IRTT"
  · subst h11; rfl
  simp [setCol, h1, h2, h3, h4, h5, h6, h7, h8, h9, h10, h11]

/-- Helper: the `use` field after a column assignment. -/
theorem setCol_use (d v : String) (r : RoutingTable) :
    (setCol d v r).use = if d = "Use" then (parseIntGo v 10 8).1 else r.use := by
  by_cases h1 : d = "Iface"
  · subst h1; rfl
  by_cases h2 : d = "Destination"
  · subst h2; rfl
  by_cases h3 : d = "Gateway"
  · subst h3; rfl
  by_cases h4 : d = "Flags"
  · subst h4; rfl
  by_cases h5 : d = "RefCnt"
  · subst h5; rfl
  by_cases h6 : d = "Use"
  · subst h6; rfl
  by_cases h7 : d = "Metric"
  · subst h7; rfl
  by_cases h8 : d = "Mask"
  · subst h8; rfl
  by_cases h9 : d = "MTU"
  · subst h9; rfl
  by_cases h10 : d = "Window"
  · subst h10; rfl
  by_cases h11 : d = "IRTT"
  · subst h11; rfl
  simp [setCol, h1, h2, h3, h4, h5, h6, h7, h8, h9, h10, h11]

/-- Helper: the `metric` field after a column assignment. -/
theorem setCol_metric (d v : String) (r : RoutingTable) :
    (setCol d v r).metric = if d = "Metric" then (parseIntGo v 10 8).1 else r.metric := by
  by_cases h1 : d = "Iface"
  · subst h1; rfl
  by_cases h2 : d = "Destination"
  · subst h2; rfl
  by_cases h3 : d = "Gateway"
  · subst h3; rfl
  by_cases h4 : d = "Flags"
  · subst h4; rfl
  by_cases h5 : d = "RefCnt"
  · subst h5; rfl
  by_cases h6 : d = "Use"
  · subst h6; rfl
  by_cases h7 : d = "Metric"
  · subst h7; rfl
  by_cases h8 : d = "Mask"
  · subst h8; rfl
  by_cases h9 : d = "MTU"
  · subst h9; rfl
  by_cases h10 : d = "Window"
  · subst h10; rfl
  by_cases h11 : d = "IRTT"
  · subst h11; rfl
  simp [setCol, h1, h2, h3, h4, h5, h6, h7, h8, h9, h10, h11]

/-- Helper: the `mask` field after a column assignment. -/
theorem setCol_mask (d v : String) (r : RoutingTable) :
    (setCol d v r).mask = if d = "Mask" then v else r.mask := by
  by_cases h1 : d = "Iface"
  · subst h1; rfl
  by_cases h2 : d = "Destination"
  · subst h2; rfl
  by_cases h3 : d = "Gateway"
  · subst h3; rfl
  by_cases h4 : d = "Flags"
  · subst h4; rfl
  by_cases h5 : d = "RefCnt"
  · subst h5; rfl
  by_cases h6 : d = "Use"
  · subst h6; rfl
  by_cases h7 : d = "Metric"
  · subst h7; rfl
  by_cases h8 : d = "Mask"
  · subst h8; rfl
  by_cases h9 : d = "MTU"
  · subst h9; rfl
  by_cases h10 : d = "Window"
  · subst h10; rfl
  by_cases h11 : d = "IRTT"
  · subst h11; rfl
  simp [setCol, h1, h2, h3, h4, h5, h6, h7, h8, h9, h10, h11]

/-- Helper: the `mtu` field after a column assignment. -/
theorem setCol_mtu (d v : String) (r : RoutingTable) :
    (setCol d v r).mtu = if d = "MTU" then (parseIntGo v 10 8).1 else r.mtu := by
  by_cases h1 : d = "Iface"
  · subst h1; rfl
  by_cases h2 : d = "Destination"
  · subst h2; rfl
  by_cases h3 : d = "Gateway"
  · subst h3; rfl
  by_cases h4 : d = "Flags"
  · subst h4; rfl
  by_cases h5 : d = "RefCnt"
  · subst h5; rfl
  by_cases h6 : d = "Use"
  · subst h6; rfl
  by_cases h7 : d = "Metric"
  · subst h7; rfl
  by_cases h8 : d = "Mask"
  · subst h8; rfl
  by_cases h9 : d = "MTU"
  · subst h9; rfl
  by_cases h10 : d = "Window"
  · subst h10; rfl
  by_cases h11 : d = "IRTT"
  · subst h11; rfl
  simp [setCol, h1, h2, h3, h4, h5, h6, h7, h8, h9, h10, h11]

/-- Helper: the `window` field after a column assignment. -/
theorem setCol_window (d v : String) (r : RoutingTable) :
    (setCol d v r).window = if d = "Window" then (parseIntGo v 10 8).1 else r.window := by
  by_cases h1 : d = "Iface"
  · subst h1; rfl
  by_cases h2 : d = "Destination"
  · subst h2; rfl
  by_cases h3 : d = "Gateway"
  · subst h3; rfl
  by_cases h4 : d = "Flags"
  · subst h4; rfl
  by_cases h5 : d = "RefCnt"
  · subst h5; rfl
  by_cases h6 : d = "Use"
  · subst h6; rfl
  by_cases h7 : d = "Metric"
  · subst h7; rfl
  by_cases h8 : d = "Mask"
  · subst h8; rfl
  by_cases h9 : d = "MTU"
  · subst h9; rfl
  by_cases h10 : d = "Window"
  · subst h10; rfl
  by_cases h11 : d = "IRTT"
  · subst h11; rfl
  simp [setCol, h1, h2, h3, h4, h5, h6, h7, h8, h9, h10, h11]

/-- Helper: the `irtt` field after a column assignment. -/
theorem setCol_irtt (d v : String) (r : RoutingTable) :
    (setCol d v r).irtt = if d = "IRTT" then (parseIntGo v 10 8).1 else r.irtt := by
  by_cases h1 : d = "Iface"
  · subst h1; rfl
  by_cases h2 : d = "Destination"
  · subst h2; rfl
  by_cases h3 : d = "Gateway"
  · subst h3; rfl
  by_cases h4 : d = "Flags"
  · subst h4; rfl
  by_cases h5 : d = "RefCnt"
  · subst h5; rfl
  by_cases h6 : d = "Use"
  · subst h6; rfl
  by_cases h7 : d = "Metric"
  · subst h7; rfl
  by_cases h8 : d = "Mask"
  · subst h8; rfl
  by_cases h9 : d = "MTU"
  · subst h9; rfl
  by_cases h10 : d = "Window"
  · subst h10; rfl
  by_cases h11 : d = "IRTT"
  · subst h11; rfl
  simp [setCol, h1, h2, h3, h4, h5, h6, h7, h8, h9, h10, h11]

/-- Helper: field updates for distinct column names commute. -/
theorem setCol_comm (d1 v1 d2 v2 : String) (h : d1 ≠ d2) (r : RoutingTable) :
    setCol d2 v2 (setCol d1 v1 r) = setCol d1 v1 (setCol d2 v2 r) := by
  refine RoutingTable.ext ?_ ?_ ?_ ?_ ?_ ?_ ?_ ?_ ?_ ?_ ?_ <;>
    · simp only [setCol_iface, setCol_destination, setCol_gateway, setCol_flags, setCol_refCnt, setCol_use, setCol_metric, setCol_mask, setCol_mtu, setCol_window, setCol_irtt]
      split_ifs <;> simp_all

/-- C7 amended: fields are populated by the header name at the same position,
not by fixed column position: permuting the (trimmed header name, value)
pairs of a data row yields the same parsed entry, provided the column names
are distinct, rows are no longer than the header, and every column parses
without error or panic (the counterexample shows the proviso is needed). -/
theorem C7_amended_header_driven (ds1 cs1 ds2 cs2 : List String)
    (h1 : cs1.length ≤ ds1.length) (h2 : cs2.length ≤ ds2.length)
    (hperm : (trimZip ds1 cs1).Perm (trimZip ds2 cs2))
    (hnodup : ((trimZip ds1 cs1).map Prod.fst).Nodup)
    (hgood : ∀ p ∈ trimZip ds1 cs1, colGood p.1 p.2 = true) :
    parseColumns ds1 cs1 emptyRow = parseColumns ds2 cs2 emptyRow := by
  have hgood2 : ∀ p ∈ trimZip ds2 cs2, colGood p.1 p.2 = true :=
    fun p hp => hgood p (hperm.mem_iff.mpr hp)
  rw [parseColumns_eq_parsePairs _ _ _ h1, parseColumns_eq_parsePairs _ _ _ h2,
    parsePairs_ok _ _ hgood, parsePairs_ok _ _ hgood2]
  congr 1
  refine hperm.foldl_eq' ?_ emptyRow
  intro x hx y hy z
  by_cases hxy : x = y
  · subst hxy; rfl
  · have hne : x.1 ≠ y.1 := fun hq => hxy (List.inj_on_of_nodup_map hnodup hx hy hq)
    exact setCol_comm x.1 x.2 y.1 y.2 hne z

/-- C7 witness: swapping two well-formed columns together with their header
names leaves the parsed entry unchanged. -/
theorem C7_witness :
    parseColumns ["Iface", "Destination"] ["eth0", "d0"] emptyRow
      = parseColumns ["Destination", "Iface"] ["d0", "eth0"] emptyRow := by
  refine C7_amended_header_driven _ _ _ _ (by decide) (by decide) ?_ ?_ ?_
  · decide
  · decide
  · decide
